import Mathlib

/-!
Verification of the sidra-monitoring edge-to-central telemetry pipeline.

The definitions below are a shallow embedding of the Python source:
* `Sidra.Edge` embeds `src/edge/batching.py` (the `BatchAggregator`) and
  `src/edge/sender.py` (the `CentralSender`).
* `Sidra.Central` embeds `src/central/ingest_api.py` (the ingest handlers
  and the VictoriaMetrics line serializer).

Machine floats are modelled as rationals; wall-clock reads (`time.time()`)
are passed explicitly as a `now : ℚ` argument, one per operation; the
HTTP layer is modelled by passing the outcome of each attempted request
(respectively, of each downstream sink write) as an explicit argument.
-/

namespace Sidra

/-- Lookup in an association list, mirroring Python `d[k]` / `k in d`
on an insertion-ordered dict. -/
def lookupKey {α : Type} (m : List (String × α)) (k : String) : Option α :=
  match m with
  | [] => none
  | (k1, v) :: rest => if k1 = k then some v else lookupKey rest k

/-- Update or insert a key, mirroring Python `d[k] = v` on an
insertion-ordered dict (existing key keeps its position, new key appends). -/
def setKey {α : Type} (m : List (String × α)) (k : String) (v : α) : List (String × α) :=
  match m with
  | [] => [(k, v)]
  | (k1, v1) :: rest => if k1 = k then (k, v) :: rest else (k1, v1) :: setKey rest k v

/-- Check that the character list `p` starts the character list `s`. -/
def charsStartWith : List Char → List Char → Bool
  | _, [] => true
  | [], _ :: _ => false
  | c :: cs, p :: ps => c = p && charsStartWith cs ps

/-- Check that the pattern occurs somewhere inside `s`. -/
def charsHaveSub (pat : List Char) : List Char → Bool
  | [] => charsStartWith [] pat
  | c :: rest => charsStartWith (c :: rest) pat || charsHaveSub pat rest

/-- Python `pat in s` on strings (substring test). -/
def strContains (s pat : String) : Bool :=
  charsHaveSub pat.data s.data

/-- Python `s.lower()`: lower-case every character (the label and level
strings involved are ASCII). -/
def strToLower (s : String) : String :=
  String.mk (s.data.map Char.toLower)

/-- Python `sep.join(parts)`. -/
def strJoin (sep : String) : List String → String
  | [] => ""
  | [p] => p
  | p :: rest => p ++ sep ++ strJoin sep rest

/-- Python `int(q)`: truncation toward zero. -/
def pyInt (q : ℚ) : ℤ :=
  if 0 ≤ q then ⌊q⌋ else ⌈q⌉

/-- Python `round(q)` to an integer: round half to even. -/
def pyRound (q : ℚ) : ℤ :=
  if q - ⌊q⌋ < 1 / 2 then ⌊q⌋
  else if (1 : ℚ) / 2 < q - ⌊q⌋ then ⌊q⌋ + 1
  else if ⌊q⌋ % 2 = 0 then ⌊q⌋ else ⌊q⌋ + 1

namespace Edge

/-- Alert and metric priority levels (`Priority` in `src/edge/batching.py`). -/
inductive Priority where
  | CRITICAL
  | HIGH
  | NORMAL
  | LOW
deriving DecidableEq

/-- A single metric point (`MetricPoint` in `src/edge/batching.py`). -/
structure MetricPoint where
  name : String
  value : ℚ
  timestamp : ℚ
  labels : List (String × String) := []
  priority : Priority := .NORMAL
deriving DecidableEq

/-- An alert to be sent (`Alert` in `src/edge/batching.py`). -/
structure Alert where
  metric : String
  value : ℚ
  threshold : ℚ
  severity : String
  message : String
  timestamp : ℚ
  host : String
  labels : List (String × String) := []
deriving DecidableEq

/-- A log entry: the source passes log records as Python dicts; the
aggregator only reads the `level` key (`l.get('level')`). -/
structure LogEntry where
  level : String := ""
  message : String := ""
  source : String := ""
  timestamp : ℚ := 0
deriving DecidableEq

/-- A batch of metrics and alerts ready to send (`Batch` in
`src/edge/batching.py`). -/
structure Batch where
  metrics : List MetricPoint := []
  alerts : List Alert := []
  logs : List LogEntry := []
  timestamp : ℚ := 0
  host : String := ""
  priority : Priority := .NORMAL
deriving DecidableEq

/-- Constructor parameters of `BatchAggregator.__init__`. -/
structure AggConfig where
  batch_interval : ℚ := 30
  max_batch_size : ℕ := 100
  max_batch_age : ℚ := 60
deriving DecidableEq

/-- Mutable state of a `BatchAggregator` instance. -/
structure AggState where
  current_batch : Batch
  batch_start_time : ℚ
  last_values : List (String × ℚ) := []
  alert_cooldowns : List (String × ℚ) := []
deriving DecidableEq

/-- State of a freshly constructed aggregator at wall-clock time `t0`
(`BatchAggregator.__init__`: empty `Batch()` stamped with the current time). -/
def initState (t0 : ℚ) : AggState :=
  { current_batch := { timestamp := t0 }, batch_start_time := t0 }

/-- Cooldown window in seconds per severity, as selected by
`BatchAggregator._in_cooldown` (dict lookup with default 300). -/
def cooldown_seconds (severity : String) : ℚ :=
  if severity = "critical" then 60
  else if severity = "high" then 300
  else if severity = "warning" then 900
  else if severity = "normal" then 3600
  else 300

/-- Cooldown key `f"{alert.metric}:{alert.host}"` built in
`BatchAggregator.add_alert`. -/
def alert_key (a : Alert) : String :=
  a.metric ++ ":" ++ a.host

/-- Embeds `BatchAggregator._in_cooldown`. -/
def in_cooldown (s : AggState) (now : ℚ) (key : String) (severity : String) : Bool :=
  match lookupKey s.alert_cooldowns key with
  | none => false
  | some last_sent => decide (now - last_sent < cooldown_seconds severity)

/-- Embeds `BatchAggregator._should_skip_metric`. -/
def should_skip_metric (s : AggState) (metric : MetricPoint) : Bool :=
  match lookupKey s.last_values metric.name with
  | none => false
  | some last_value =>
    if strContains (strToLower metric.name) "percent" then
      decide (|metric.value - last_value| < 1)
    else if last_value ≠ 0 then
      decide (|(metric.value - last_value) / last_value| * 100 < 1)
    else
      false

/-- Embeds `BatchAggregator._reset_batch`. -/
def reset_batch (s : AggState) (now : ℚ) : AggState :=
  { s with current_batch := { host := s.current_batch.host, timestamp := now },
           batch_start_time := now }

/-- Embeds `BatchAggregator._check_batch_ready`: emit the current batch
when its metric+alert count reaches `max_batch_size` or its age reaches
`max_batch_age`. -/
def check_batch_ready (cfg : AggConfig) (s : AggState) (now : ℚ) : Option Batch × AggState :=
  if cfg.max_batch_size ≤ s.current_batch.metrics.length + s.current_batch.alerts.length
      ∨ cfg.max_batch_age ≤ now - s.batch_start_time then
    (some s.current_batch, reset_batch s now)
  else
    (none, s)

/-- Embeds `BatchAggregator._create_immediate_batch`. -/
def create_immediate_batch (s : AggState) (now : ℚ)
    (metrics : List MetricPoint) (alerts : List Alert) : Batch :=
  { metrics := metrics, alerts := alerts, logs := [], timestamp := now,
    host := s.current_batch.host, priority := .CRITICAL }

/-- Embeds `BatchAggregator.add_metric`. -/
def add_metric (cfg : AggConfig) (s : AggState) (now : ℚ) (metric : MetricPoint) :
    Option Batch × AggState :=
  if metric.priority = .CRITICAL then
    (some (create_immediate_batch s now [metric] []), s)
  else if should_skip_metric s metric then
    (none, s)
  else
    check_batch_ready cfg
      { s with current_batch := { s.current_batch with
                                  metrics := s.current_batch.metrics ++ [metric] },
               last_values := setKey s.last_values metric.name metric.value } now

/-- Embeds `BatchAggregator.add_alert`. -/
def add_alert (cfg : AggConfig) (s : AggState) (now : ℚ) (alert : Alert) :
    Option Batch × AggState :=
  if in_cooldown s now (alert_key alert) alert.severity then
    (none, s)
  else if alert.severity = "critical" ∨ alert.severity = "high" then
    (some (create_immediate_batch
        { s with alert_cooldowns := setKey s.alert_cooldowns (alert_key alert) now }
        now [] [alert]),
      { s with alert_cooldowns := setKey s.alert_cooldowns (alert_key alert) now })
  else
    check_batch_ready cfg
      { s with alert_cooldowns := setKey s.alert_cooldowns (alert_key alert) now,
               current_batch := { s.current_batch with
                                  alerts := s.current_batch.alerts ++ [alert] } } now

/-- Log levels treated as critical by `BatchAggregator.add_logs`
(`l.get('level') in ('critical', 'error')`). -/
def is_critical_log (l : LogEntry) : Bool :=
  l.level == "critical" || l.level == "error"

/-- Embeds `BatchAggregator.add_logs`. -/
def add_logs (cfg : AggConfig) (s : AggState) (now : ℚ) (logs : List LogEntry) :
    Option Batch × AggState :=
  if logs.filter is_critical_log ≠ [] then
    (some { logs := logs.filter is_critical_log, timestamp := now,
            host := s.current_batch.host, priority := .CRITICAL }, s)
  else
    check_batch_ready cfg
      { s with current_batch := { s.current_batch with
                                  logs := s.current_batch.logs ++ logs } } now

/-- Embeds `BatchAggregator._is_batch_empty`. -/
def is_batch_empty (s : AggState) : Bool :=
  s.current_batch.metrics.isEmpty && s.current_batch.alerts.isEmpty
    && s.current_batch.logs.isEmpty

/-- Embeds `BatchAggregator.flush`. -/
def flush (s : AggState) (now : ℚ) : Option Batch × AggState :=
  if is_batch_empty s then (none, s)
  else (some s.current_batch, reset_batch s now)

/-- One external call on the aggregator, tagged with the wall-clock time
at which it happens. -/
inductive AggOp where
  | metricOp (now : ℚ) (m : MetricPoint)
  | alertOp (now : ℚ) (a : Alert)
  | logsOp (now : ℚ) (ls : List LogEntry)
  | flushOp (now : ℚ)

/-- Dispatch one aggregator call. -/
def stepOp (cfg : AggConfig) (s : AggState) : AggOp → Option Batch × AggState
  | .metricOp now m => add_metric cfg s now m
  | .alertOp now a => add_alert cfg s now a
  | .logsOp now ls => add_logs cfg s now ls
  | .flushOp now => flush s now

/-- Run a sequence of aggregator calls, collecting every batch returned. -/
def runOps (cfg : AggConfig) (s : AggState) : List AggOp → List Batch × AggState
  | [] => ([], s)
  | op :: rest =>
      ((stepOp cfg s op).1.toList ++ (runOps cfg (stepOp cfg s op).2 rest).1,
       (runOps cfg (stepOp cfg s op).2 rest).2)

/-- Number of metric and alert items of a batch: the quantity
`_check_batch_ready` compares against `max_batch_size`. -/
def maSize (b : Batch) : ℕ := b.metrics.length + b.alerts.length

/-- The alert survived its `add_alert` call: it sits either in the batch
the call returned or in the aggregator's accumulating current batch. -/
def alert_accepted (a : Alert) : Option Batch × AggState → Prop
  | (some b, s1) => a ∈ b.alerts ∨ a ∈ s1.current_batch.alerts
  | (none, s1) => a ∈ s1.current_batch.alerts

/-- Result of a send operation (`SendResult` in `src/edge/sender.py`).
The free-text `error` field carries no behavior and is omitted. -/
structure SendResult where
  success : Bool
  status_code : ℕ := 0
  retry_after : Option ℕ := none
deriving DecidableEq

/-- One row of the durable buffer as written by `CentralSender.send_batch`
(`endpoint`, serialized payload, batch timestamp, priority); the payload
body is irrelevant to the claims and is kept as the batch itself. -/
structure BufferedEntry where
  endpoint : String
  batch : Batch
  timestamp : ℚ
  priority : ℕ
deriving DecidableEq

/-- Number of rows of the buffer (`MetricBuffer.count`), zero when no
buffer is configured. -/
def buffer_count (buffer : Option (List BufferedEntry)) : ℕ :=
  (buffer.map List.length).getD 0

/-- Endpoint selection of `CentralSender.send_batch`. -/
def select_endpoint (batch : Batch) : String :=
  if batch.alerts ≠ [] then "/api/v1/ingest/alerts"
  else if batch.logs ≠ [] then "/api/v1/ingest/logs"
  else "/api/v1/ingest/metrics"

/-- Embeds the retry loop of `CentralSender._send_with_retry`. The first
argument is the number of loop iterations still allowed (`retries + 1`
at the call site); `outcomes` lists the `SendResult` produced by each
successive `_send_once` call (an exhausted list stands for a network
error, which `_send_once` reports as a failure with status 0); the last
argument accumulates the number of attempts made. Returns the final
`SendResult` together with the number of attempts consumed. -/
def send_with_retry : ℕ → List SendResult → ℕ → SendResult × ℕ
  | 0, _, used => ({ success := false }, used)
  | n + 1, outcomes, used =>
      let result := outcomes.headD { success := false }
      if result.success then (result, used + 1)
      else if result.status_code = 429 ∧ result.retry_after.isSome then
        send_with_retry n outcomes.tail (used + 1)
      else if 400 ≤ result.status_code ∧ result.status_code < 500 then
        (result, used + 1)
      else
        send_with_retry n outcomes.tail (used + 1)

/-- Embeds `CentralSender.send_batch`: send with retries, and on failure
append the batch to the durable buffer when one is configured. Returns
the send result, the number of attempts made, and the new buffer
contents. -/
def send_batch (retry_count : ℕ) (outcomes : List SendResult) (batch : Batch)
    (buffer : Option (List BufferedEntry)) :
    SendResult × ℕ × Option (List BufferedEntry) :=
  let endpoint := select_endpoint batch
  let ru := send_with_retry (retry_count + 1) outcomes 0
  let buffer1 :=
    if ru.1.success = false then
      match buffer with
      | some rows =>
          some (rows ++ [{ endpoint := endpoint, batch := batch,
                           timestamp := batch.timestamp,
                           priority := if batch.priority = .CRITICAL then 0 else 2 }])
      | none => none
    else buffer
  (ru.1, ru.2, buffer1)

end Edge

namespace Central

/-- Request model `MetricPoint` of `src/central/ingest_api.py`. -/
structure MetricPoint where
  name : String
  value : ℚ
  timestamp : ℚ
  labels : List (String × String) := []
deriving DecidableEq

/-- Request model `Alert` of `src/central/ingest_api.py`; the
numeric-or-string `value`/`threshold` fields are kept as rationals, the
claims never inspect them. -/
structure Alert where
  metric : String
  value : ℚ
  threshold : Option ℚ := none
  severity : String
  message : String
  timestamp : ℚ
  host : String := ""
  labels : List (String × String) := []
deriving DecidableEq

/-- Request model `LogEntry` of `src/central/ingest_api.py`. -/
structure LogEntry where
  level : String
  message : String
  source : String := ""
  timestamp : ℚ := 0
deriving DecidableEq

/-- Request model `MetricsPayload`. -/
structure MetricsPayload where
  timestamp : ℚ := 0
  host : String := ""
  priority : String := "NORMAL"
  metrics : List MetricPoint := []
deriving DecidableEq

/-- Request model `AlertsPayload`. -/
structure AlertsPayload where
  timestamp : ℚ := 0
  host : String := ""
  alert : Option Alert := none
  alerts : List Alert := []
deriving DecidableEq

/-- Request model `LogsPayload`. -/
structure LogsPayload where
  timestamp : ℚ := 0
  host : String := ""
  logs : List LogEntry := []
deriving DecidableEq

/-- Request model `BatchPayload`; batch logs arrive as plain dicts and
are modelled with the `LogEntry` shape. -/
structure BatchPayload where
  timestamp : ℚ := 0
  host : String := ""
  priority : String := "NORMAL"
  metrics : List MetricPoint := []
  alerts : List Alert := []
  logs : List LogEntry := []
deriving DecidableEq

/-- HTTP response of an ingest handler: a 200 JSON body, or an
`HTTPException` carrying a status code and detail message. -/
inductive IngestResponse where
  | ok (received : ℕ)
  | okEmpty (message : String)
  | httpError (status : ℕ) (detail : String)
deriving DecidableEq

/-- HTTP status code of a handler response. -/
def IngestResponse.status_code : IngestResponse → ℕ
  | .ok _ => 200
  | .okEmpty _ => 200
  | .httpError s _ => s

/-- Label rendering of `VictoriaMetricsClient.write`:
Python `",".join(f'LBRACEkRBRACE="LBRACEvRBRACE"' for k, v in m.labels.items())`
with the braces interpolating the key and the raw value. -/
def vm_labels_str (labels : List (String × String)) : String :=
  strJoin "," (labels.map (fun kv => kv.1 ++ "=\"" ++ kv.2 ++ "\""))

/-- One serialized line of `VictoriaMetricsClient.write` for one metric.
The Python float-to-string rendering of the value is kept abstract as
`fval`; the timestamp is `int(m.timestamp * 1000)`. -/
def vm_metric_line (fval : ℚ → String) (m : MetricPoint) : String :=
  let labels_str := vm_labels_str m.labels
  if labels_str ≠ "" then
    m.name ++ "\x7b" ++ labels_str ++ "\x7d " ++ fval m.value ++ " "
      ++ toString (pyInt (m.timestamp * 1000))
  else
    m.name ++ " " ++ fval m.value ++ " " ++ toString (pyInt (m.timestamp * 1000))

/-- Body sent by `VictoriaMetricsClient.write`: the lines joined by
newlines. -/
def vm_write_data (fval : ℚ → String) (metrics : List MetricPoint) : String :=
  strJoin "\n" (metrics.map (vm_metric_line fval))

/-- Modelled from the spec (section 4.7 and the C6 sentence): the claimed
serialization of one metric, parametrized by the label-value transform
`esc` and the millisecond-timestamp function `tms`. The spec sentence
instantiates `esc` with backslash-escaping and `tms` with `pyRound`. -/
def spec_metric_line (fval : ℚ → String) (esc : String → String) (tms : ℚ → ℤ)
    (m : MetricPoint) : String :=
  if m.labels = [] then
    m.name ++ " " ++ fval m.value ++ " " ++ toString (tms (m.timestamp * 1000))
  else
    m.name ++ "\x7b"
      ++ strJoin "," (m.labels.map (fun kv => kv.1 ++ "=\"" ++ esc kv.2 ++ "\""))
      ++ "\x7d " ++ fval m.value ++ " " ++ toString (tms (m.timestamp * 1000))

/-- Modelled from the spec: backslash-escaping of `"` and backslash in a
label value, as section 4.7 requires. -/
def escape_label_value (v : String) : String :=
  String.mk (v.data.foldr
    (fun c acc => if c = '\\' ∨ c = '"' then '\\' :: c :: acc else c :: acc) [])

/-- Host stamping of `ingest_metrics` and `ingest_batch`:
`if payload.host and 'host' not in metric.labels: metric.labels['host'] = payload.host`. -/
def stamp_host (host : String) (m : MetricPoint) : MetricPoint :=
  if host ≠ "" ∧ lookupKey m.labels "host" = none then
    { m with labels := setKey m.labels "host" host }
  else m

/-- Embeds the `POST /api/v1/ingest/metrics` handler. `vm_write_ok` is
the outcome of the `VictoriaMetricsClient.write` call; the second
component returns the metric list handed to that writer (empty when no
write was attempted). -/
def ingest_metrics (vm_write_ok : Bool) (payload : MetricsPayload) :
    IngestResponse × List MetricPoint :=
  if payload.metrics = [] then (.okEmpty "No metrics to ingest", [])
  else
    let metrics := payload.metrics.map (stamp_host payload.host)
    if vm_write_ok = false then (.httpError 500 "Failed to write metrics", metrics)
    else (.ok metrics.length, metrics)

/-- Host stamping of `ingest_alerts`:
`if not alert.host and payload.host: alert.host = payload.host`. -/
def stamp_alert_host (host : String) (a : Alert) : Alert :=
  if a.host = "" ∧ host ≠ "" then { a with host := host } else a

/-- Embeds the `POST /api/v1/ingest/alerts` handler. `oo_write_ok` is
the outcome of the `OpenObserveClient.write_alerts` call; the handler
assigns it to a variable and never reads it. The second component
returns the alerts stored in the alert cache and handed to the writer. -/
def ingest_alerts (oo_write_ok : Bool) (payload : AlertsPayload) :
    IngestResponse × List Alert :=
  let alerts := payload.alerts ++ (match payload.alert with
                                   | some a => [a]
                                   | none => [])
  if alerts = [] then (.okEmpty "No alerts to ingest", [])
  else
    let stamped := alerts.map (stamp_alert_host payload.host)
    let _unused : Bool := oo_write_ok
    (.ok stamped.length, stamped)

/-- Embeds the `POST /api/v1/ingest/logs` handler. `oo_write_ok` is the
outcome of the `OpenObserveClient.write_logs` call. -/
def ingest_logs (oo_write_ok : Bool) (payload : LogsPayload) : IngestResponse :=
  if payload.logs = [] then .okEmpty "No logs to ingest"
  else if oo_write_ok = false then .httpError 500 "Failed to write logs"
  else .ok payload.logs.length

/-- The `received` object of the `POST /api/v1/ingest/batch` response. -/
structure BatchReceived where
  metrics : Option ℕ := none
  alerts : Option ℕ := none
  logs : Option ℕ := none
deriving DecidableEq

/-- Embeds the `POST /api/v1/ingest/batch` handler. The three booleans
are the outcomes of the VictoriaMetrics write, the OpenObserve alerts
write, and the OpenObserve logs write; the handler never reads any of
them. Returns the HTTP status code and the `received` body. -/
def ingest_batch (vm_write_ok oo_alerts_ok oo_logs_ok : Bool)
    (payload : BatchPayload) : ℕ × BatchReceived :=
  let _unused : Bool × Bool × Bool := (vm_write_ok, oo_alerts_ok, oo_logs_ok)
  { metrics := if payload.metrics ≠ [] then some payload.metrics.length else none,
    alerts := if payload.alerts ≠ [] then some payload.alerts.length else none,
    logs := if payload.logs ≠ [] then some payload.logs.length else none
  } |> fun received => (200, received)

end Central

/-! Concrete fixtures used by the counterexample and witness theorems. -/

/-- A NORMAL-priority percent metric, value 50.0 (scenario S2). -/
def mCpu50 : Edge.MetricPoint :=
  { name := "sidra_cpu_usage_percent", value := 50, timestamp := 1 }

/-- A NORMAL-priority percent metric, value 50.3 (scenario S2). -/
def mCpu503 : Edge.MetricPoint :=
  { name := "sidra_cpu_usage_percent", value := 503 / 10, timestamp := 2 }

/-- The CRITICAL CPU metric of scenario S1. -/
def mCpuCrit : Edge.MetricPoint :=
  { name := "sidra_cpu_usage_percent", value := 99, timestamp := 100,
    labels := [("host", "h1")], priority := .CRITICAL }

/-- A normal-level log entry. -/
def logInfo : Edge.LogEntry := { level := "info", message := "hello" }

/-- An error-level log entry. -/
def logError : Edge.LogEntry := { level := "error", message := "boom" }

/-- An info-severity alert. -/
def alertInfo : Edge.Alert :=
  { metric := "m", value := 1, threshold := 0, severity := "info",
    message := "x", timestamp := 1000, host := "h" }

/-- Aggregator state holding a cooldown stamp of time 0 for the key of
`alertInfo`. -/
def stateCooldown : Edge.AggState :=
  { current_batch := { timestamp := 0 }, batch_start_time := 1000,
    alert_cooldowns := [("m:h", 0)] }

/-- Aggregator configuration with `max_batch_size = 2`. -/
def cfgSize2 : Edge.AggConfig := { max_batch_size := 2 }

/-- Outcome of a send attempt answered with HTTP 400. -/
def resp400 : Edge.SendResult := { success := false, status_code := 400 }

/-- A metrics-only batch handed to the sender. -/
def batchMetricsOnly : Edge.Batch := { metrics := [mCpu50], timestamp := 5 }

/-- An abstract float rendering for the serializer fixtures. -/
def fvalOne : ℚ → String := fun _ => "1"

/-- A metric whose label value contains a double quote and whose
timestamp lands at 1.9 ms. -/
def mQuoteLabel : Central.MetricPoint :=
  { name := "m", value := 1, timestamp := 19 / 10000, labels := [("k", "a\"b")] }

/-- A metrics payload whose `host` field is the empty string and whose
single metric lacks a `host` label. -/
def payloadEmptyHost : Central.MetricsPayload :=
  { host := "", metrics := [{ name := "m", value := 1, timestamp := 0 }] }

/-- A metrics payload with host `h1` and one unlabelled metric. -/
def payloadH1 : Central.MetricsPayload :=
  { host := "h1", metrics := [{ name := "m", value := 1, timestamp := 0 }] }

/-- An alerts payload carrying one critical alert. -/
def payloadOneAlert : Central.AlertsPayload :=
  { alerts := [{ metric := "cpu", value := 1, severity := "critical",
                 message := "x", timestamp := 0, host := "h" }] }

/-- A batch payload carrying one metric, one alert and one log entry. -/
def payloadMixedBatch : Central.BatchPayload :=
  { host := "h1",
    metrics := [{ name := "m", value := 1, timestamp := 0 }],
    alerts := [{ metric := "cpu", value := 1, severity := "high",
                 message := "x", timestamp := 0, host := "h" }],
    logs := [{ level := "error", message := "boom" }] }

/-! Shared helper lemmas. -/

theorem lookupKey_setKey_self {α : Type} (m : List (String × α)) (k : String) (v : α) :
    lookupKey (setKey m k v) k = some v := by
  induction m with
  | nil => simp [setKey, lookupKey]
  | cons p rest ih =>
      obtain ⟨k1, v1⟩ := p
      by_cases h : k1 = k
      · simp [setKey, lookupKey, h]
      · simp [setKey, lookupKey, h, ih]

namespace Edge

/-! Claim theorems about the edge aggregator and sender. -/

/-- C8: a CRITICAL-priority metric makes `add_metric` return, in the same
call, a CRITICAL batch holding exactly that metric and nothing else,
bypassing dedup, and the aggregator state is left unchanged. -/
theorem add_metric_critical_immediate (cfg : AggConfig) (s : AggState) (now : ℚ)
    (m : MetricPoint) (h : m.priority = .CRITICAL) :
    add_metric cfg s now m =
      (some { metrics := [m], alerts := [], logs := [], timestamp := now,
              host := s.current_batch.host, priority := .CRITICAL }, s) := by
  simp [add_metric, h, create_immediate_batch]

unseal Rat.sub Rat.add Rat.mul Rat.inv Rat.ofScientific in
/-- C8 witness: scenario S1 instantiated. -/
theorem add_metric_critical_immediate_witness :
    mCpuCrit.priority = .CRITICAL ∧
    add_metric {} (initState 0) 100 mCpuCrit =
      (some { metrics := [mCpuCrit], alerts := [], logs := [], timestamp := 100,
              host := "", priority := .CRITICAL }, initState 0) :=
  ⟨by decide, add_metric_critical_immediate {} (initState 0) 100 mCpuCrit (by decide)⟩

/-- C10: an alert whose key is in cooldown is dropped with no effect at
all on the aggregator state; in particular the stored cooldown stamp is
not refreshed and the current batch and dedup map are untouched. -/
theorem add_alert_in_cooldown_frame (cfg : AggConfig) (s : AggState) (now : ℚ)
    (a : Alert) (h : in_cooldown s now (alert_key a) a.severity = true) :
    add_alert cfg s now a = (none, s) := by
  simp [add_alert, h]

unseal Rat.sub Rat.add Rat.mul Rat.inv Rat.ofScientific in
/-- C10 witness: a repeat of `alertInfo` 100 seconds into its 300-second
cooldown window is dropped without touching the state. -/
theorem add_alert_in_cooldown_frame_witness :
    in_cooldown stateCooldown 100 (alert_key alertInfo) alertInfo.severity = true ∧
    add_alert {} stateCooldown 100 alertInfo = (none, stateCooldown) :=
  ⟨by decide, add_alert_in_cooldown_frame {} stateCooldown 100 alertInfo (by decide)⟩

/-- C4 (amended): when some entry of the call has level critical or
error, `add_logs` returns an immediate CRITICAL batch holding exactly
the critical/error entries, and the remaining normal-level entries of
the call are discarded: the aggregator state is unchanged and nothing is
appended to the current batch. -/
theorem add_logs_critical_immediate (cfg : AggConfig) (s : AggState) (now : ℚ)
    (logs : List LogEntry) (h : logs.filter is_critical_log ≠ []) :
    add_logs cfg s now logs =
      (some { metrics := [], alerts := [], logs := logs.filter is_critical_log,
              timestamp := now, host := s.current_batch.host,
              priority := .CRITICAL }, s) := by
  simp [add_logs, h]

unseal Rat.sub Rat.add Rat.mul Rat.inv Rat.ofScientific in
/-- C4 witness: a mixed normal/error call instantiated. -/
theorem add_logs_critical_immediate_witness :
    [logInfo, logError].filter is_critical_log ≠ [] ∧
    add_logs {} (initState 0) 7 [logInfo, logError] =
      (some { metrics := [], alerts := [], logs := [logError], timestamp := 7,
              host := "", priority := .CRITICAL }, initState 0) :=
  ⟨by decide, by
    have h := add_logs_critical_immediate {} (initState 0) 7 [logInfo, logError] (by decide)
    simpa using h⟩

unseal Rat.sub Rat.add Rat.mul Rat.inv Rat.ofScientific in
/-- C4 counterexample: on `add_logs [logInfo, logError]` the claim puts
`logInfo` into the current batch; the code leaves the current batch
empty, discarding the normal-level entry. -/
theorem add_logs_normal_entries_discarded_cex :
    (add_logs {} (initState 0) 7 [logInfo, logError]).2.current_batch.logs = [] ∧
    (add_logs {} (initState 0) 7 [logInfo, logError]).1 =
      some { logs := [logError], timestamp := 7, host := "", priority := .CRITICAL } := by
  decide

/-- C1 (amended): when the first attempt of `send_batch` is answered
with a 4xx status other than 429, the call stops after that single
attempt and returns the failed result; however the batch IS appended to
the durable buffer when one is configured (the code buffers every failed
send, 4xx included). -/
theorem send_batch_4xx_terminal (retry_count : ℕ) (r : SendResult)
    (rest : List SendResult) (batch : Batch) (buffer : Option (List BufferedEntry))
    (h1 : r.success = false) (h2 : 400 ≤ r.status_code) (h3 : r.status_code < 500)
    (h4 : r.status_code ≠ 429) :
    send_batch retry_count (r :: rest) batch buffer =
      (r, 1,
        match buffer with
        | some rows =>
            some (rows ++ [{ endpoint := select_endpoint batch, batch := batch,
                             timestamp := batch.timestamp,
                             priority := if batch.priority = .CRITICAL then 0 else 2 }])
        | none => none) := by
  have hr : send_with_retry (retry_count + 1) (r :: rest) 0 = (r, 1) := by
    simp [send_with_retry, h1, h2, h3, h4]
  cases buffer with
  | none => simp [send_batch, hr, h1]
  | some rows => simp [send_batch, hr, h1]

unseal Rat.sub Rat.add Rat.mul Rat.inv Rat.ofScientific in
/-- C1 witness: one 400 response with `retry_count = 3` and an empty
configured buffer. -/
theorem send_batch_4xx_terminal_witness :
    resp400.success = false ∧ 400 ≤ resp400.status_code ∧
    resp400.status_code < 500 ∧ resp400.status_code ≠ 429 ∧
    send_batch 3 [resp400] batchMetricsOnly (some []) =
      (resp400, 1,
        some [{ endpoint := select_endpoint batchMetricsOnly, batch := batchMetricsOnly,
                timestamp := batchMetricsOnly.timestamp, priority := 2 }]) :=
  ⟨rfl, by decide, by decide, by decide, by
    have h := send_batch_4xx_terminal 3 resp400 [] batchMetricsOnly (some [])
      rfl (by decide) (by decide) (by decide)
    simpa using h⟩

unseal Rat.sub Rat.add Rat.mul Rat.inv Rat.ofScientific in
/-- C1 counterexample: with every attempt answered 400 and a configured
buffer holding 0 items, `send_batch` does stop after one failed attempt,
but `buffer.count()` grows from 0 to 1, where the claim demands it stay
0. -/
theorem send_batch_400_buffers_cex :
    (send_batch 3 [resp400] batchMetricsOnly (some [])).1.success = false ∧
    (send_batch 3 [resp400] batchMetricsOnly (some [])).2.1 = 1 ∧
    buffer_count (some []) = 0 ∧
    buffer_count (send_batch 3 [resp400] batchMetricsOnly (some [])).2.2 = 1 := by
  decide

/-- C5 (amended): the cooldown windows keyed on `(host, metric)` are 60 s
for critical, 300 s for high, 900 s for warning, 3600 s for normal, and
300 s — not 3600 s — for every other severity value; an alert whose key
was stamped less than its window ago is dropped with the state
unchanged, and one at or past the window is accepted. -/
theorem add_alert_cooldown_windows (cfg : AggConfig) (s : AggState) (now : ℚ)
    (a : Alert) (last : ℚ)
    (hlast : lookupKey s.alert_cooldowns (alert_key a) = some last) :
    (now - last < cooldown_seconds a.severity → add_alert cfg s now a = (none, s)) ∧
    (cooldown_seconds a.severity ≤ now - last →
      alert_accepted a (add_alert cfg s now a)) ∧
    cooldown_seconds "critical" = 60 ∧ cooldown_seconds "high" = 300 ∧
    cooldown_seconds "warning" = 900 ∧ cooldown_seconds "normal" = 3600 ∧
    ∀ sev : String, sev ≠ "critical" → sev ≠ "high" → sev ≠ "warning" →
      sev ≠ "normal" → cooldown_seconds sev = 300 := by
  refine ⟨?_, ?_, rfl, rfl, rfl, rfl, ?_⟩
  · intro hlt
    have hc : in_cooldown s now (alert_key a) a.severity = true := by
      simp [in_cooldown, hlast, hlt]
    simp [add_alert, hc]
  · intro hge
    have hc : in_cooldown s now (alert_key a) a.severity = false := by
      simp only [in_cooldown, hlast, decide_eq_false_iff_not, not_lt]
      exact hge
    by_cases hsev : a.severity = "critical" ∨ a.severity = "high"
    · simp [add_alert, hc, hsev, create_immediate_batch, alert_accepted]
    · simp only [add_alert, hc, Bool.false_eq_true, if_false, hsev, if_true]
      unfold check_batch_ready
      split
      · simp [alert_accepted]
      · simp [alert_accepted]
  · intro sev h1 h2 h3 h4
    simp [cooldown_seconds, h1, h2, h3, h4]

unseal Rat.sub Rat.add Rat.mul Rat.inv Rat.ofScientific in
/-- C5 witness: `alertInfo` repeated 1000 seconds after its stamp is past
its 300-second window and is accepted into the current batch. -/
theorem add_alert_cooldown_windows_witness :
    lookupKey stateCooldown.alert_cooldowns (alert_key alertInfo) = some 0 ∧
    cooldown_seconds alertInfo.severity ≤ 1000 - 0 ∧
    alert_accepted alertInfo (add_alert {} stateCooldown 1000 alertInfo) :=
  ⟨by decide, by decide,
    (add_alert_cooldown_windows {} stateCooldown 1000 alertInfo 0 (by decide)).2.1
      (by decide)⟩

unseal Rat.sub Rat.add Rat.mul Rat.inv Rat.ofScientific in
/-- C5 counterexample: an info-severity alert repeated 1000 seconds after
its stamp would still be inside the claimed 3600-second window, yet the
code accepts it (the dict lookup default is 300, not 3600): the call
appends it to the current batch instead of dropping it. -/
theorem cooldown_info_severity_cex :
    alertInfo.severity = "info" ∧
    (1000 : ℚ) - 0 < 3600 ∧
    cooldown_seconds "info" = 300 ∧
    (add_alert {} stateCooldown 1000 alertInfo).2.current_batch.alerts = [alertInfo] := by
  refine ⟨rfl, by norm_num, rfl, by decide⟩

/-- C9: with a fresh metric name containing "percent" (case-insensitive),
after `add_metric m1` a second `add_metric m2` of the same name with
`|m2.value - m1.value| < 1` and neither metric CRITICAL returns no batch
and changes no aggregator state, and a later `flush` returns a batch
holding exactly `m1`. -/
theorem percent_metric_dedup (cfg : AggConfig) (t0 now1 now2 now3 : ℚ)
    (m1 m2 : MetricPoint)
    (h1 : m1.priority ≠ .CRITICAL) (h2 : m2.priority ≠ .CRITICAL)
    (hname : m2.name = m1.name)
    (hpct : strContains (strToLower m1.name) "percent" = true)
    (hdelta : |m2.value - m1.value| < 1)
    (hsize : 2 ≤ cfg.max_batch_size)
    (hage : now1 - t0 < cfg.max_batch_age) :
    (add_metric cfg (initState t0) now1 m1).1 = none ∧
    add_metric cfg (add_metric cfg (initState t0) now1 m1).2 now2 m2 =
      (none, (add_metric cfg (initState t0) now1 m1).2) ∧
    (flush (add_metric cfg (initState t0) now1 m1).2 now3).1 =
      some { metrics := [m1], alerts := [], logs := [], timestamp := t0,
             host := "", priority := .NORMAL } := by
  have hskip1 : should_skip_metric (initState t0) m1 = false := by
    simp [should_skip_metric, initState, lookupKey]
  have hcond : ¬ (cfg.max_batch_size ≤ 1 ∨ cfg.max_batch_age ≤ now1 - t0) := by
    push_neg
    exact ⟨by omega, hage⟩
  have hstep : add_metric cfg (initState t0) now1 m1 =
      (none, { current_batch := { metrics := [m1], timestamp := t0 },
               batch_start_time := t0,
               last_values := [(m1.name, m1.value)],
               alert_cooldowns := [] }) := by
    simp only [add_metric, h1, if_false, initState, should_skip_metric, lookupKey,
      Bool.false_eq_true, check_batch_ready, setKey]
    simp only [List.nil_append, List.length_cons, List.length_nil, Nat.zero_add]
    have hcond2 : ¬ (cfg.max_batch_size ≤ 1 + 0 ∨ cfg.max_batch_age ≤ now1 - t0) := by
      simpa using hcond
    rw [if_neg hcond2]
  have hskip2 : should_skip_metric
      { current_batch := { metrics := [m1], timestamp := t0 },
        batch_start_time := t0,
        last_values := [(m1.name, m1.value)],
        alert_cooldowns := [] } m2 = true := by
    simp [should_skip_metric, lookupKey, hname, hpct, hdelta]
  refine ⟨by rw [hstep], ?_, ?_⟩
  · rw [hstep]
    simp [add_metric, h2, hskip2]
  · rw [hstep]
    simp [flush, is_batch_empty]

unseal Rat.sub Rat.add Rat.mul Rat.inv Rat.ofScientific in
/-- C9 witness: scenario S2 (`cpu=50.0`, then `cpu=50.3`, then flush)
instantiated with the default configuration. -/
theorem percent_metric_dedup_witness :
    mCpu50.priority ≠ .CRITICAL ∧ mCpu503.priority ≠ .CRITICAL ∧
    mCpu503.name = mCpu50.name ∧
    strContains (strToLower mCpu50.name) "percent" = true ∧
    |mCpu503.value - mCpu50.value| < 1 ∧
    2 ≤ AggConfig.max_batch_size {} ∧ (1 : ℚ) - 0 < AggConfig.max_batch_age {} ∧
    add_metric {} (add_metric {} (initState 0) 1 mCpu50).2 2 mCpu503 =
      (none, (add_metric {} (initState 0) 1 mCpu50).2) ∧
    (flush (add_metric {} (initState 0) 1 mCpu50).2 3).1 =
      some { metrics := [mCpu50], alerts := [], logs := [], timestamp := 0,
             host := "", priority := .NORMAL } := by
  have h := percent_metric_dedup {} 0 1 2 3 mCpu50 mCpu503 (by decide) (by decide)
    rfl (by decide) (by decide) (by decide) (by decide)
  exact ⟨by decide, by decide, rfl, by decide, by decide, by decide, by decide,
    h.2.1, h.2.2⟩

theorem check_batch_ready_inv (cfg : AggConfig) (s : AggState) (now : ℚ)
    (hmax : 1 ≤ cfg.max_batch_size)
    (hpre : maSize s.current_batch ≤ cfg.max_batch_size) :
    maSize (check_batch_ready cfg s now).2.current_batch < cfg.max_batch_size ∧
    ∀ b : Batch, (check_batch_ready cfg s now).1 = some b →
      maSize b ≤ cfg.max_batch_size := by
  unfold check_batch_ready
  split
  · refine ⟨?_, ?_⟩
    · simp only [reset_batch, maSize, List.length_nil]
      omega
    · intro b hb
      simp only [Option.some.injEq] at hb
      rw [← hb]
      exact hpre
  · next hc =>
      push_neg at hc
      refine ⟨?_, ?_⟩
      · simpa [maSize] using hc.1
      · intro b hb
        simp at hb

theorem add_metric_inv (cfg : AggConfig) (s : AggState) (now : ℚ) (m : MetricPoint)
    (hmax : 1 ≤ cfg.max_batch_size)
    (hs : maSize s.current_batch < cfg.max_batch_size) :
    maSize (add_metric cfg s now m).2.current_batch < cfg.max_batch_size ∧
    ∀ b : Batch, (add_metric cfg s now m).1 = some b →
      maSize b ≤ cfg.max_batch_size := by
  unfold add_metric
  split
  · refine ⟨hs, ?_⟩
    intro b hb
    simp only [Option.some.injEq] at hb
    rw [← hb]
    simp only [create_immediate_batch, maSize, List.length_cons, List.length_nil]
    omega
  · split
    · exact ⟨hs, by intro b hb; simp at hb⟩
    · apply check_batch_ready_inv cfg _ now hmax
      simp only [maSize, List.length_append, List.length_cons, List.length_nil]
      simp only [maSize] at hs
      omega

theorem add_alert_inv (cfg : AggConfig) (s : AggState) (now : ℚ) (a : Alert)
    (hmax : 1 ≤ cfg.max_batch_size)
    (hs : maSize s.current_batch < cfg.max_batch_size) :
    maSize (add_alert cfg s now a).2.current_batch < cfg.max_batch_size ∧
    ∀ b : Batch, (add_alert cfg s now a).1 = some b →
      maSize b ≤ cfg.max_batch_size := by
  unfold add_alert
  split
  · exact ⟨hs, by intro b hb; simp at hb⟩
  · split
    · refine ⟨hs, ?_⟩
      intro b hb
      simp only [Option.some.injEq] at hb
      rw [← hb]
      simp only [create_immediate_batch, maSize, List.length_cons, List.length_nil]
      omega
    · apply check_batch_ready_inv cfg _ now hmax
      simp only [maSize, List.length_append, List.length_cons, List.length_nil]
      simp only [maSize] at hs
      omega

theorem add_logs_inv (cfg : AggConfig) (s : AggState) (now : ℚ) (ls : List LogEntry)
    (hmax : 1 ≤ cfg.max_batch_size)
    (hs : maSize s.current_batch < cfg.max_batch_size) :
    maSize (add_logs cfg s now ls).2.current_batch < cfg.max_batch_size ∧
    ∀ b : Batch, (add_logs cfg s now ls).1 = some b →
      maSize b ≤ cfg.max_batch_size := by
  unfold add_logs
  split
  · refine ⟨hs, ?_⟩
    intro b hb
    simp only [Option.some.injEq] at hb
    rw [← hb]
    simp only [maSize, List.length_nil]
    omega
  · apply check_batch_ready_inv cfg _ now hmax
    simp only [maSize]
    simp only [maSize] at hs
    omega

theorem flush_inv (cfg : AggConfig) (s : AggState) (now : ℚ)
    (hmax : 1 ≤ cfg.max_batch_size)
    (hs : maSize s.current_batch < cfg.max_batch_size) :
    maSize (flush s now).2.current_batch < cfg.max_batch_size ∧
    ∀ b : Batch, (flush s now).1 = some b → maSize b ≤ cfg.max_batch_size := by
  unfold flush
  split
  · exact ⟨hs, by intro b hb; simp at hb⟩
  · refine ⟨?_, ?_⟩
    · simp only [reset_batch, maSize, List.length_nil]
      omega
    · intro b hb
      simp only [Option.some.injEq] at hb
      rw [← hb]
      omega

theorem stepOp_inv (cfg : AggConfig) (s : AggState) (op : AggOp)
    (hmax : 1 ≤ cfg.max_batch_size)
    (hs : maSize s.current_batch < cfg.max_batch_size) :
    maSize (stepOp cfg s op).2.current_batch < cfg.max_batch_size ∧
    ∀ b : Batch, (stepOp cfg s op).1 = some b → maSize b ≤ cfg.max_batch_size := by
  cases op with
  | metricOp now m => exact add_metric_inv cfg s now m hmax hs
  | alertOp now a => exact add_alert_inv cfg s now a hmax hs
  | logsOp now ls => exact add_logs_inv cfg s now ls hmax hs
  | flushOp now => exact flush_inv cfg s now hmax hs

theorem runOps_inv (cfg : AggConfig) (hmax : 1 ≤ cfg.max_batch_size) :
    ∀ (ops : List AggOp) (s : AggState),
      maSize s.current_batch < cfg.max_batch_size →
      ∀ b ∈ (runOps cfg s ops).1, maSize b ≤ cfg.max_batch_size := by
  intro ops
  induction ops with
  | nil =>
      intro s hs b hb
      simp [runOps] at hb
  | cons op rest ih =>
      intro s hs b hb
      rw [runOps] at hb
      rcases List.mem_append.mp hb with hmem | hmem
      · have hsome : (stepOp cfg s op).1 = some b := by
          cases hstep : (stepOp cfg s op).1 with
          | none => rw [hstep] at hmem; simp at hmem
          | some b1 =>
              rw [hstep] at hmem
              simp only [Option.toList_some, List.mem_singleton] at hmem
              rw [hmem]
        exact (stepOp_inv cfg s op hmax hs).2 b hsome
      · exact ih (stepOp cfg s op).2 (stepOp_inv cfg s op hmax hs).1 b hmem

/-- C3 (amended): over every call sequence on a freshly constructed
aggregator with `max_batch_size ≥ 1`, every batch the aggregator returns
holds at most `max_batch_size` metric and alert items combined; log
entries are not counted by the size check and are unbounded. -/
theorem aggregator_metric_alert_bound (cfg : AggConfig) (t0 : ℚ) (ops : List AggOp)
    (hmax : 1 ≤ cfg.max_batch_size) :
    ∀ b ∈ (runOps cfg (initState t0) ops).1, maSize b ≤ cfg.max_batch_size := by
  apply runOps_inv cfg hmax ops (initState t0)
  simp only [initState, maSize, List.length_nil]
  omega

unseal Rat.sub Rat.add Rat.mul Rat.inv Rat.ofScientific in
/-- C3 witness: a run that returns one full two-item batch and one
flushed one-item batch under `max_batch_size = 2`. -/
theorem aggregator_metric_alert_bound_witness :
    1 ≤ cfgSize2.max_batch_size ∧
    ((runOps cfgSize2 (initState 0)
        [AggOp.metricOp 1 mCpu50, AggOp.metricOp 2 { mCpu50 with name := "a", value := 3 },
         AggOp.metricOp 3 { mCpu50 with name := "b", value := 4 },
         AggOp.flushOp 4]).1.map maSize) = [2, 1] ∧
    ∀ b ∈ (runOps cfgSize2 (initState 0)
        [AggOp.metricOp 1 mCpu50, AggOp.metricOp 2 { mCpu50 with name := "a", value := 3 },
         AggOp.metricOp 3 { mCpu50 with name := "b", value := 4 },
         AggOp.flushOp 4]).1, maSize b ≤ cfgSize2.max_batch_size :=
  ⟨by decide, by decide,
    aggregator_metric_alert_bound cfgSize2 0
      [AggOp.metricOp 1 mCpu50, AggOp.metricOp 2 { mCpu50 with name := "a", value := 3 },
       AggOp.metricOp 3 { mCpu50 with name := "b", value := 4 },
       AggOp.flushOp 4] (by decide)⟩

unseal Rat.sub Rat.add Rat.mul Rat.inv Rat.ofScientific in
/-- C3 counterexample: with `max_batch_size = 2`, one `add_logs` call
with three normal-level entries followed by `flush` makes the aggregator
return a batch of three items (all logs), exceeding `max_batch_size`:
the size check counts only metrics and alerts. -/
theorem aggregator_logs_exceed_max_batch_size_cex :
    ((runOps cfgSize2 (initState 0)
        [AggOp.logsOp 0 [logInfo, logInfo, logInfo], AggOp.flushOp 0]).1.map
      (fun b => b.metrics.length + b.alerts.length + b.logs.length)) = [3] ∧
    cfgSize2.max_batch_size < 3 := by
  decide

end Edge

namespace Central

/-! Claim theorems about the central ingest layer. -/

theorem strJoin_length_head (sep x : String) (xs : List String) :
    x.length ≤ (strJoin sep (x :: xs)).length := by
  cases xs with
  | nil => simp [strJoin]
  | cons y ys =>
      simp [strJoin, String.length_append]
      omega

theorem vm_labels_str_eq_empty_iff (labels : List (String × String)) :
    vm_labels_str labels = "" ↔ labels = [] := by
  cases labels with
  | nil => simp [vm_labels_str, strJoin]
  | cons kv rest =>
      constructor
      · intro h
        exfalso
        have h2 : strJoin "," ((kv.1 ++ "=\"" ++ kv.2 ++ "\"") ::
            rest.map (fun kv2 => kv2.1 ++ "=\"" ++ kv2.2 ++ "\"")) = "" := by
          simpa [vm_labels_str] using h
        have hx := strJoin_length_head "," (kv.1 ++ "=\"" ++ kv.2 ++ "\"")
            (rest.map (fun kv2 => kv2.1 ++ "=\"" ++ kv2.2 ++ "\""))
        rw [h2] at hx
        have l1 : ("=\"" : String).length = 2 := rfl
        have l2 : ("\"" : String).length = 1 := rfl
        simp [String.length_append, l1, l2] at hx
      · intro h
        cases h

/-- C6 (amended): the TSDB writer serializes each metric to exactly the
line `<name>LBRACE<k>="<v>",…RBRACE <value> <ts_ms>` where `ts_ms` is the
truncation `int(timestamp*1000)` (not `round`), the label values are
emitted raw (no backslash-escaping of `"` or backslash), and an empty
labels map produces the braceless form. -/
theorem vm_metric_line_amended (fval : ℚ → String) (m : MetricPoint) :
    vm_metric_line fval m = spec_metric_line fval id pyInt m := by
  by_cases h : m.labels = []
  · simp [vm_metric_line, spec_metric_line, h, vm_labels_str, strJoin]
  · have hne : vm_labels_str m.labels ≠ "" := fun hc =>
      h ((vm_labels_str_eq_empty_iff m.labels).mp hc)
    have hne2 : strJoin "," (m.labels.map (fun kv => kv.1 ++ "=\"" ++ kv.2 ++ "\"")) ≠ "" := by
      simpa [vm_labels_str] using hne
    simp [vm_metric_line, spec_metric_line, h, hne2, vm_labels_str, id_eq]

unseal Rat.sub Rat.add Rat.mul Rat.inv Rat.ofScientific in
/-- C6 counterexample: on a metric whose label value holds a double
quote and whose timestamp is 0.0019 s, the code emits the quote raw and
truncates 1.9 ms to 1, while the claimed form escapes the quote and
rounds to 2. -/
theorem vm_metric_line_spec_mismatch_cex :
    vm_metric_line fvalOne mQuoteLabel ≠
      spec_metric_line fvalOne escape_label_value pyRound mQuoteLabel ∧
    vm_metric_line fvalOne mQuoteLabel = "m\x7bk=\"a\"b\"\x7d 1 1" ∧
    spec_metric_line fvalOne escape_label_value pyRound mQuoteLabel =
      "m\x7bk=\"a\\\"b\"\x7d 1 2" := by
  decide

/-- C7 (amended): the metrics ingest handler passes every payload metric
through `stamp_host`; when the payload host is non-empty, a metric
lacking a `host` label gets `labels.host = payload.host`, and a metric
already carrying a `host` label is left unchanged — but when the payload
host is the empty string (falsy in Python) no stamping happens at all
and the metric is passed through unchanged. -/
theorem ingest_metrics_host_stamp (vm_write_ok : Bool) (p : MetricsPayload)
    (m : MetricPoint) (hm : m ∈ p.metrics) :
    stamp_host p.host m ∈ (ingest_metrics vm_write_ok p).2 ∧
    (p.host ≠ "" → lookupKey m.labels "host" = none →
      lookupKey (stamp_host p.host m).labels "host" = some p.host) ∧
    (∀ v : String, lookupKey m.labels "host" = some v → stamp_host p.host m = m) ∧
    (p.host = "" → stamp_host p.host m = m) := by
  have hne : p.metrics ≠ [] := by
    intro h
    rw [h] at hm
    cases hm
  refine ⟨?_, ?_, ?_, ?_⟩
  · unfold ingest_metrics
    rw [if_neg hne]
    split <;> exact List.mem_map_of_mem _ hm
  · intro hh hnone
    unfold stamp_host
    rw [if_pos ⟨hh, hnone⟩]
    exact lookupKey_setKey_self m.labels "host" p.host
  · intro v hv
    have hcond : ¬ (p.host ≠ "" ∧ lookupKey m.labels "host" = none) := by
      rintro ⟨-, hn⟩
      rw [hv] at hn
      cases hn
    unfold stamp_host
    rw [if_neg hcond]
  · intro hh
    have hcond : ¬ (p.host ≠ "" ∧ lookupKey m.labels "host" = none) := by
      rintro ⟨hne2, -⟩
      exact hne2 hh
    unfold stamp_host
    rw [if_neg hcond]

/-- C7 witness: a payload with host `h1` and one unlabelled metric. -/
theorem ingest_metrics_host_stamp_witness :
    ({ name := "m", value := 1, timestamp := 0 } : MetricPoint) ∈ payloadH1.metrics ∧
    payloadH1.host ≠ "" ∧
    lookupKey ({ name := "m", value := 1, timestamp := 0 } : MetricPoint).labels
      "host" = none ∧
    stamp_host payloadH1.host { name := "m", value := 1, timestamp := 0 } ∈
      (ingest_metrics true payloadH1).2 ∧
    lookupKey (stamp_host payloadH1.host
      { name := "m", value := 1, timestamp := 0 }).labels "host" = some "h1" :=
  have h := ingest_metrics_host_stamp true payloadH1
    { name := "m", value := 1, timestamp := 0 } (by decide)
  ⟨by decide, by decide, by decide, h.1, h.2.1 (by decide) (by decide)⟩

/-- C7 counterexample: with an empty payload host, the metric reaches
the TSDB writer still without any `host` label, where the claim demands
`labels.host = ""`. -/
theorem ingest_metrics_empty_host_cex :
    payloadEmptyHost.host = "" ∧
    ((ingest_metrics true payloadEmptyHost).2.map
      (fun m => lookupKey m.labels "host")) = [none] := by
  decide

/-- C2: the alerts ingest handler computes the OpenObserve write outcome
into an unused variable and answers 200 `ok` even when that write
failed, and the batch handler answers 200 even when all three downstream
writes failed; only the metrics and logs handlers surface a 500. -/
theorem ingest_write_failure_returns_ok :
    (ingest_alerts false payloadOneAlert).1.status_code = 200 ∧
    (ingest_batch false false false payloadMixedBatch).1 = 200 ∧
    (ingest_metrics false payloadH1).1.status_code = 500 ∧
    (ingest_logs false
      { host := "h", logs := [{ level := "info", message := "x" }] }).status_code
      = 500 := by
  decide

end Central

end Sidra
